import Mathlib

/-!
Shallow embedding of the player-controlled skier of the ceros-ski game
(src/Entities/Skier.js) together with the interface of its external
collaborators, and proofs of the specified properties.

Positions and speeds are modelled as rationals, game times as integers
(milliseconds).  The collaborators that live outside the provided sources
(Constants.js, Core/Utils.js, Core/Animation.js, the image manager and the
obstacle manager) are modelled from the spec at their interface boundary:
image metrics are an arbitrary function from image identifiers to pixel
dimensions, the obstacle source is an arbitrary list of obstacles, and the
numeric constants DIAGONAL_SPEED_REDUCER and ANIMATION_FRAME_SPEED_MS are
arbitrary parameters (no proved property depends on their values).
-/

namespace CerosSki

/-- Image identifiers used by the skier and the obstacles.  Modelled from the
spec: the IMAGE_NAMES table of Constants.js is not under src/; the spec
describes identifiers for the five directional skier sprites, the crash
sprite, the five jump-animation frames, and obstacle type tags (trees, rocks,
jump ramps).  `undefinedImage` models the JavaScript `undefined` produced by
an out-of-range table lookup. -/
inductive ImageName where
  | skierCrash
  | skierLeft
  | skierLeftDown
  | skierDown
  | skierRightDown
  | skierRight
  | skierJump1
  | skierJump2
  | skierJump3
  | skierJump4
  | skierJump5
  | tree
  | treeCluster
  | rock1
  | rock2
  | jumpRamp
  | undefinedImage
deriving DecidableEq

/-- The different states the skier can be in (Skier.js lines 21-24). -/
inductive SkierState where
  | skiing
  | jumping
  | crashed
  | dead
deriving DecidableEq

/-- The skier starts running at this speed (Skier.js line 15). -/
def STARTING_SPEED : ℚ := 1

/-- The obstacles which cause the skier to initiate a jump when collided with
(Skier.js lines 30-32). -/
def JUMP_INITIATING_OBSTACLES : List ImageName := [ImageName.jumpRamp]

/-- The obstacles which the skier can dodge when in the jumping state
(Skier.js lines 38-42). -/
def JUMPABLE_OBSTACLES : List ImageName :=
  [ImageName.jumpRamp, ImageName.rock1, ImageName.rock2]

/-- Direction constant (Skier.js line 48). -/
def DIRECTION_LEFT : ℕ := 0

/-- Direction constant (Skier.js line 49). -/
def DIRECTION_LEFT_DOWN : ℕ := 1

/-- Direction constant (Skier.js line 50). -/
def DIRECTION_DOWN : ℕ := 2

/-- Direction constant (Skier.js line 51). -/
def DIRECTION_RIGHT_DOWN : ℕ := 3

/-- Direction constant (Skier.js line 52). -/
def DIRECTION_RIGHT : ℕ := 4

/-- Sequence of images that comprise the jumping animation
(Skier.js lines 59-65). -/
def IMAGES_JUMPING : List ImageName :=
  [ImageName.skierJump1, ImageName.skierJump2, ImageName.skierJump3,
   ImageName.skierJump4, ImageName.skierJump5]

/-- Mapping of the image to display for the skier based upon which direction
they are facing (Skier.js lines 71-77).  A JavaScript lookup outside the
table yields `undefined`. -/
def DIRECTION_IMAGES : ℕ → ImageName
  | 0 => ImageName.skierLeft
  | 1 => ImageName.skierLeftDown
  | 2 => ImageName.skierDown
  | 3 => ImageName.skierRightDown
  | 4 => ImageName.skierRight
  | _ => ImageName.undefinedImage

/-- Input key identifiers.  Modelled from the spec: the KEYS table of
Constants.js is not under src/; the spec names five recognized commands
(turn-left, turn-right, turn-up, turn-down, jump); any other command string
is unrecognized. -/
def KEYS_LEFT : String := "left"

/-- Input key identifier for the turn-right command.  Modelled from the spec
(KEYS table of Constants.js, not under src/). -/
def KEYS_RIGHT : String := "right"

/-- Input key identifier for the turn-up command.  Modelled from the spec
(KEYS table of Constants.js, not under src/). -/
def KEYS_UP : String := "up"

/-- Input key identifier for the turn-down command.  Modelled from the spec
(KEYS table of Constants.js, not under src/). -/
def KEYS_DOWN : String := "down"

/-- Input key identifier for the jump command.  Modelled from the spec
(KEYS table of Constants.js, not under src/). -/
def KEYS_SPACE : String := "space"

/-- An axis-aligned rectangle, as produced by Core/Utils.js `Rect`
(left, top, right, bottom). -/
structure Rect where
  left : ℚ
  top : ℚ
  right : ℚ
  bottom : ℚ
deriving DecidableEq

/-- Modelled from the spec: `intersectTwoRects` of Core/Utils.js is not under
src/.  The spec says two rectangles overlap iff neither is entirely to one
side of the other on either axis, and touching edges do not count as overlap
(strict inequality). -/
def intersectTwoRects (r1 r2 : Rect) : Bool :=
  decide (r1.left < r2.right ∧ r2.left < r1.right ∧
          r1.top < r2.bottom ∧ r2.top < r1.bottom)

/-- An animation: an ordered finite sequence of image identifiers and a
looping flag (Core/Animation.js, modelled from the spec at its interface:
getImages, getLooping, getCallback).  The completion callback of the only
animation the skier ever constructs is `Skier.finishJumping` (bound in
setupAnimations); it is applied inline in `Skier.finishAnimation` below. -/
structure Animation where
  images : List ImageName
  looping : Bool
deriving DecidableEq

/-- The one animation stored by setupAnimations (Skier.js lines 154-160):
the non-looping jump sequence whose callback is finishJumping. -/
def jumpAnimation : Animation := { images := IMAGES_JUMPING, looping := false }

/-- The animations table built by setupAnimations: only the jumping state has
an animation (Skier.js lines 154-160); a lookup for any other state yields
`undefined`, modelled as `none`. -/
def animations : SkierState → Option Animation
  | SkierState.jumping => some jumpAnimation
  | _ => none

/-- An obstacle as exposed by the Obstacle Source: a type tag (`imageName`)
and an axis-aligned bounding rectangle (`getBounds()`), modelled from the
spec at the interface boundary (the obstacle classes are not under src/). -/
structure Obstacle where
  imageName : ImageName
  bounds : Rect

/-- The skier entity.  Fields `x`, `y` come from the Entity base class; the
rest are the class fields of Skier.js lines 84-127.  `finishCount` is ghost
instrumentation: it counts invocations of the animation-completion callback
(the spec asks for the one-shot callback to be observable as an explicit
event); no operation ever reads it. -/
structure Skier where
  x : ℚ
  y : ℚ
  imageName : ImageName
  state : SkierState
  direction : ℕ
  speed : ℚ
  curAnimation : Option Animation
  curAnimationFrame : ℕ
  curAnimationFrameTime : ℤ
  finishCount : ℕ
deriving DecidableEq

/-- Set the skier's image based upon the direction they are facing
(Skier.js lines 220-222). -/
def Skier.setDirectionalImage (s : Skier) : Skier :=
  { s with imageName := DIRECTION_IMAGES s.direction }

/-- Set the current direction and update the image accordingly
(Skier.js lines 212-215). -/
def Skier.setDirection (d : ℕ) (s : Skier) : Skier :=
  Skier.setDirectionalImage { s with direction := d }

/-- Set the current animation from the animations table, reset to the
beginning of the animation and set the proper image to display
(Skier.js lines 465-475).  The assignment happens before the null check, so
a state without an animation clears `curAnimation`. -/
def Skier.setAnimation (s : Skier) : Skier :=
  match animations s.state with
  | none => { s with curAnimation := none }
  | some a =>
      { s with curAnimation := some a, curAnimationFrame := 0,
               imageName := a.images.getD 0 ImageName.undefinedImage }

/-- Set the state and then set a new current animation based upon that state
(Skier.js lines 167-170). -/
def Skier.setState (newState : SkierState) (s : Skier) : Skier :=
  Skier.setAnimation { s with state := newState }

/-- Crash the skier: set the state to crashed, the speed to zero and the
crash image (Skier.js lines 548-552).  Note that it does not touch
`curAnimation`. -/
def Skier.crash (s : Skier) : Skier :=
  { s with state := SkierState.crashed, speed := 0,
           imageName := ImageName.skierCrash }

/-- Change the skier back to the skiing state at the starting speed, facing
the recovery direction (Skier.js lines 560-564). -/
def Skier.recoverFromCrash (newDirection : ℕ) (s : Skier) : Skier :=
  Skier.setDirection newDirection
    { s with state := SkierState.skiing, speed := STARTING_SPEED }

/-- Kill the skier: dead state, no movement (Skier.js lines 569-572). -/
def Skier.die (s : Skier) : Skier :=
  { s with state := SkierState.dead, speed := 0 }

/-- Make the skier jump; do nothing if crashed or already jumping
(Skier.js lines 481-487). -/
def Skier.jump (s : Skier) : Skier :=
  if s.state = SkierState.crashed ∨ s.state = SkierState.jumping then s
  else Skier.setState SkierState.jumping s

/-- Callback fired after the jumping animation finishes: return to the skiing
state unless crashed (Skier.js lines 493-499). -/
def Skier.finishJumping (s : Skier) : Skier :=
  if s.state = SkierState.crashed then s
  else { s with state := SkierState.skiing }

/-- Finish a non-looping animation: clear the current animation, then fire
its callback (Skier.js lines 455-460).  The only animation ever installed is
the jump animation, whose callback is `finishJumping`; the ghost field
`finishCount` records the firing. -/
def Skier.finishAnimation (s : Skier) : Skier :=
  Skier.finishJumping
    { s with curAnimation := none, finishCount := s.finishCount + 1 }

/-- Advance the current animation frame and update the image from the
animation's image sequence; finish the animation when a non-looping sequence
runs past its end (Skier.js lines 435-450).  The source dereferences
`curAnimation` unconditionally; it is only called under the guard in
`animate`, so the `none` branch is unreachable there. -/
def Skier.nextAnimationFrame (gameTime : ℤ) (s : Skier) : Skier :=
  match s.curAnimation with
  | none => s
  | some a =>
      let s1 : Skier :=
        { s with curAnimationFrameTime := gameTime,
                 curAnimationFrame := s.curAnimationFrame + 1 }
      if s1.curAnimationFrame ≥ a.images.length then
        if a.looping = false then
          Skier.finishAnimation s1
        else
          let s2 : Skier := { s1 with curAnimationFrame := 0 }
          { s2 with
              imageName := a.images.getD s2.curAnimationFrame
                ImageName.undefinedImage }
      else
        { s1 with
            imageName := a.images.getD s1.curAnimationFrame
              ImageName.undefinedImage }

/-- Advance to the next frame of the current animation if enough time has
elapsed since the previous frame (Skier.js lines 419-427).
ANIMATION_FRAME_SPEED_MS comes from Constants.js (not under src/) and is
passed as the parameter `frameSpeedMs`. -/
def Skier.animate (frameSpeedMs gameTime : ℤ) (s : Skier) : Skier :=
  if s.curAnimation.isSome then
    if gameTime - s.curAnimationFrameTime > frameSpeedMs then
      Skier.nextAnimationFrame gameTime s
    else s
  else s

/-- Move the skier left by the fixed starting-speed increment
(Skier.js lines 274-276). -/
def Skier.moveSkierLeft (s : Skier) : Skier :=
  { s with x := s.x - STARTING_SPEED }

/-- Move the skier diagonally left-down (Skier.js lines 282-285).
DIAGONAL_SPEED_REDUCER comes from Constants.js (not under src/) and is
passed as the parameter `reducer`. -/
def Skier.moveSkierLeftDown (reducer : ℚ) (s : Skier) : Skier :=
  { s with x := s.x - s.speed / reducer, y := s.y + s.speed / reducer }

/-- Move the skier down at their current speed (Skier.js lines 290-292). -/
def Skier.moveSkierDown (s : Skier) : Skier :=
  { s with y := s.y + s.speed }

/-- Move the skier diagonally right-down (Skier.js lines 298-301). -/
def Skier.moveSkierRightDown (reducer : ℚ) (s : Skier) : Skier :=
  { s with x := s.x + s.speed / reducer, y := s.y + s.speed / reducer }

/-- Move the skier right by the fixed starting-speed increment
(Skier.js lines 307-309). -/
def Skier.moveSkierRight (s : Skier) : Skier :=
  { s with x := s.x + STARTING_SPEED }

/-- Move the skier up by the fixed starting-speed increment
(Skier.js lines 315-317). -/
def Skier.moveSkierUp (s : Skier) : Skier :=
  { s with y := s.y - STARTING_SPEED }

/-- Per-frame movement dispatch on the current direction (Skier.js lines
252-268, a switch on the direction constants); fully horizontal directions
(and, as in the source switch, any direction outside the table) are not
advanced per frame. -/
def Skier.move (reducer : ℚ) (s : Skier) : Skier :=
  if s.direction = DIRECTION_LEFT_DOWN then Skier.moveSkierLeftDown reducer s
  else if s.direction = DIRECTION_DOWN then Skier.moveSkierDown s
  else if s.direction = DIRECTION_RIGHT_DOWN then Skier.moveSkierRightDown reducer s
  else s

/-- The skier's bounding rectangle, asymmetric at the bottom
(Skier.js lines 508-516).  `imgDims` is the Image Metrics Provider: it maps
an image identifier to its pixel (width, height). -/
def Skier.getBounds (imgDims : ImageName → ℚ × ℚ) (s : Skier) : Rect :=
  let image := imgDims s.imageName
  { left := s.x - image.1 / 2,
    top := s.y - image.2 / 2,
    right := s.x + image.1 / 2,
    bottom := s.y - image.2 / 4 }

/-- Find the first obstacle overlapping the skier's bounds and apply the
state-dependent collision policy (Skier.js lines 523-542). -/
def Skier.checkIfHitObstacle (imgDims : ImageName → ℚ × ℚ)
    (obstacles : List Obstacle) (s : Skier) : Skier :=
  let skierBounds := Skier.getBounds imgDims s
  match obstacles.find? (fun o => intersectTwoRects skierBounds o.bounds) with
  | none => s
  | some collision =>
      if s.state = SkierState.jumping ∧
          JUMPABLE_OBSTACLES.contains collision.imageName then
        s
      else if s.state = SkierState.skiing ∧
          JUMP_INITIATING_OBSTACLES.contains collision.imageName then
        Skier.jump s
      else
        Skier.crash s

/-- One frame update: move and check collisions while skiing or jumping,
then advance the animation if (still) jumping (Skier.js lines 227-236).
The second guard re-reads the state mutated by the collision check. -/
def Skier.update (reducer : ℚ) (frameSpeedMs : ℤ)
    (imgDims : ImageName → ℚ × ℚ) (obstacles : List Obstacle)
    (gameTime : ℤ) (s : Skier) : Skier :=
  let s1 :=
    if s.state = SkierState.jumping ∨ s.state = SkierState.skiing then
      Skier.checkIfHitObstacle imgDims obstacles (Skier.move reducer s)
    else s
  if s1.state = SkierState.jumping then
    Skier.animate frameSpeedMs gameTime s1
  else s1

/-- Turn left: recover first if crashed; nudge left if already fully left,
otherwise step the direction one position left (Skier.js lines 358-369). -/
def Skier.turnLeft (s : Skier) : Skier :=
  let s1 := if s.state = SkierState.crashed then
    Skier.recoverFromCrash DIRECTION_LEFT s else s
  if s1.direction = DIRECTION_LEFT then Skier.moveSkierLeft s1
  else Skier.setDirection (s1.direction - 1) s1

/-- Turn right: recover first if crashed; nudge right if already fully right,
otherwise step the direction one position right (Skier.js lines 375-386). -/
def Skier.turnRight (s : Skier) : Skier :=
  let s1 := if s.state = SkierState.crashed then
    Skier.recoverFromCrash DIRECTION_RIGHT s else s
  if s1.direction = DIRECTION_RIGHT then Skier.moveSkierRight s1
  else Skier.setDirection (s1.direction + 1) s1

/-- Turn up: no-op if crashed; move up only when facing fully left or right
(Skier.js lines 392-400). -/
def Skier.turnUp (s : Skier) : Skier :=
  if s.state = SkierState.crashed then s
  else if s.direction = DIRECTION_LEFT ∨ s.direction = DIRECTION_RIGHT then
    Skier.moveSkierUp s
  else s

/-- Turn down: no-op if crashed; otherwise snap the direction to down
(Skier.js lines 406-412). -/
def Skier.turnDown (s : Skier) : Skier :=
  if s.state = SkierState.crashed then s
  else Skier.setDirection DIRECTION_DOWN s

/-- Handle keyboard input (Skier.js lines 325-352).  Returns the updated
skier and the `handled` flag.  The source's `case KEYS.SPACE` has no `break`
statement, so after executing `jump()` control falls through into `default`,
which sets `handled = false`; the embedding reproduces that fall-through. -/
def Skier.handleInput (inputKey : String) (s : Skier) : Skier × Bool :=
  if s.state = SkierState.dead then (s, false)
  else if inputKey = KEYS_LEFT then (Skier.turnLeft s, true)
  else if inputKey = KEYS_RIGHT then (Skier.turnRight s, true)
  else if inputKey = KEYS_UP then (Skier.turnUp s, true)
  else if inputKey = KEYS_DOWN then (Skier.turnDown s, true)
  else if inputKey = KEYS_SPACE then (Skier.jump s, false)
  else (s, false)

/-- The skier constructed at position (x, y) (Skier.js lines 144-149): class
field initializers, then setupAnimations (merged into the global `animations`
table) and setAnimation.  `t0` models the nondeterministic `Date.now()` used
to initialize `curAnimationFrameTime`. -/
def initSkier (x y : ℚ) (t0 : ℤ) : Skier :=
  Skier.setAnimation
    { x := x, y := y, imageName := ImageName.skierDown,
      state := SkierState.skiing, direction := DIRECTION_DOWN,
      speed := STARTING_SPEED, curAnimation := none, curAnimationFrame := 0,
      curAnimationFrameTime := t0, finishCount := 0 }

/-- One externally triggered operation on the skier: a frame update (with the
frame's collaborator data) or an input event.  Used to state properties of
arbitrary operation sequences. -/
inductive Op where
  | upd (reducer : ℚ) (frameSpeedMs : ℤ) (imgDims : ImageName → ℚ × ℚ)
      (obstacles : List Obstacle) (gameTime : ℤ)
  | inp (inputKey : String)

/-- Apply one operation to the skier (the input operation keeps the updated
skier and discards the handled flag). -/
def applyOp (o : Op) (s : Skier) : Skier :=
  match o with
  | Op.upd reducer frameSpeedMs imgDims obstacles gameTime =>
      Skier.update reducer frameSpeedMs imgDims obstacles gameTime s
  | Op.inp inputKey => (Skier.handleInput inputKey s).1

/-- Apply a sequence of operations, oldest first. -/
def applyOps (ops : List Op) (s : Skier) : Skier :=
  ops.foldl (fun t o => applyOp o t) s

/-- The skier states reachable from a freshly constructed skier by frame
updates, input events, and the external death trigger. -/
inductive Reachable : Skier → Prop where
  | init (x y : ℚ) (t0 : ℤ) : Reachable (initSkier x y t0)
  | step_update (reducer : ℚ) (frameSpeedMs : ℤ)
      (imgDims : ImageName → ℚ × ℚ) (obstacles : List Obstacle)
      (gameTime : ℤ) (s : Skier) : Reachable s →
      Reachable (Skier.update reducer frameSpeedMs imgDims obstacles gameTime s)
  | step_input (inputKey : String) (s : Skier) : Reachable s →
      Reachable (Skier.handleInput inputKey s).1
  | step_die (s : Skier) : Reachable s → Reachable (Skier.die s)

/-- Sample image metrics provider used in concrete instantiations: every
sprite is 10 by 10 pixels. -/
def tenByTen : ImageName → ℚ × ℚ := fun _ => (10, 10)

/-- A tree obstacle with a large bounding rectangle, used in concrete
collision instantiations. -/
def bigTree : Obstacle :=
  { imageName := ImageName.tree,
    bounds := { left := 90, top := 90, right := 110, bottom := 110 } }

/-- A rock obstacle with a large bounding rectangle, used in concrete
collision instantiations. -/
def bigRock : Obstacle :=
  { imageName := ImageName.rock1,
    bounds := { left := 90, top := 90, right := 110, bottom := 110 } }

/-- A jump ramp obstacle with a large bounding rectangle, used in concrete
collision instantiations. -/
def bigRamp : Obstacle :=
  { imageName := ImageName.jumpRamp,
    bounds := { left := 90, top := 90, right := 110, bottom := 110 } }

/-! Basic lemmas about the individual operations. -/

lemma setAnimation_state (s : Skier) :
    (Skier.setAnimation s).state = s.state := by
  unfold Skier.setAnimation
  rcases h : animations s.state with _ | a <;> simp

lemma setAnimation_speed (s : Skier) :
    (Skier.setAnimation s).speed = s.speed := by
  unfold Skier.setAnimation
  rcases h : animations s.state with _ | a <;> simp

lemma setAnimation_pos (s : Skier) :
    (Skier.setAnimation s).x = s.x ∧ (Skier.setAnimation s).y = s.y := by
  unfold Skier.setAnimation
  rcases h : animations s.state with _ | a <;> simp

lemma setState_state (ns : SkierState) (s : Skier) :
    (Skier.setState ns s).state = ns := by
  unfold Skier.setState
  rw [setAnimation_state]

lemma setState_speed (ns : SkierState) (s : Skier) :
    (Skier.setState ns s).speed = s.speed := by
  unfold Skier.setState
  rw [setAnimation_speed]

lemma jump_speed (s : Skier) : (Skier.jump s).speed = s.speed := by
  unfold Skier.jump
  split
  · rfl
  · rw [setState_speed]

lemma jump_state (s : Skier) :
    (Skier.jump s).state = s.state ∨
      (Skier.jump s).state = SkierState.jumping := by
  unfold Skier.jump
  split
  · exact Or.inl rfl
  · exact Or.inr (setState_state _ _)

lemma finishJumping_speed (s : Skier) :
    (Skier.finishJumping s).speed = s.speed := by
  unfold Skier.finishJumping
  split <;> rfl

lemma finishJumping_state (s : Skier) :
    (Skier.finishJumping s).state = s.state ∨
      (Skier.finishJumping s).state = SkierState.skiing := by
  unfold Skier.finishJumping
  split
  · exact Or.inl rfl
  · exact Or.inr rfl

lemma finishAnimation_speed (s : Skier) :
    (Skier.finishAnimation s).speed = s.speed := by
  unfold Skier.finishAnimation
  rw [finishJumping_speed]

lemma finishAnimation_state (s : Skier) :
    (Skier.finishAnimation s).state = s.state ∨
      (Skier.finishAnimation s).state = SkierState.skiing := by
  unfold Skier.finishAnimation
  exact finishJumping_state _

lemma nextAnimationFrame_speed (gameTime : ℤ) (s : Skier) :
    (Skier.nextAnimationFrame gameTime s).speed = s.speed := by
  unfold Skier.nextAnimationFrame
  rcases h : s.curAnimation with _ | a
  · rfl
  · simp only
    split
    · split
      · rw [finishAnimation_speed]
      · rfl
    · rfl

lemma nextAnimationFrame_state (gameTime : ℤ) (s : Skier) :
    (Skier.nextAnimationFrame gameTime s).state = s.state ∨
      (Skier.nextAnimationFrame gameTime s).state = SkierState.skiing := by
  unfold Skier.nextAnimationFrame
  rcases h : s.curAnimation with _ | a
  · exact Or.inl rfl
  · simp only
    split
    · split
      · exact finishAnimation_state _
      · exact Or.inl rfl
    · exact Or.inl rfl

lemma animate_speed (frameSpeedMs gameTime : ℤ) (s : Skier) :
    (Skier.animate frameSpeedMs gameTime s).speed = s.speed := by
  unfold Skier.animate
  split
  · split
    · rw [nextAnimationFrame_speed]
    · rfl
  · rfl

lemma animate_state (frameSpeedMs gameTime : ℤ) (s : Skier) :
    (Skier.animate frameSpeedMs gameTime s).state = s.state ∨
      (Skier.animate frameSpeedMs gameTime s).state = SkierState.skiing := by
  unfold Skier.animate
  split
  · split
    · exact nextAnimationFrame_state _ _
    · exact Or.inl rfl
  · exact Or.inl rfl

lemma move_state (reducer : ℚ) (s : Skier) :
    (Skier.move reducer s).state = s.state := by
  unfold Skier.move
  split_ifs <;> rfl

lemma move_speed (reducer : ℚ) (s : Skier) :
    (Skier.move reducer s).speed = s.speed := by
  unfold Skier.move
  split_ifs <;> rfl

lemma move_anim (reducer : ℚ) (s : Skier) :
    (Skier.move reducer s).curAnimation = s.curAnimation ∧
      (Skier.move reducer s).curAnimationFrame = s.curAnimationFrame ∧
      (Skier.move reducer s).curAnimationFrameTime = s.curAnimationFrameTime := by
  unfold Skier.move
  split_ifs <;> exact ⟨rfl, rfl, rfl⟩

lemma move_image (reducer : ℚ) (s : Skier) :
    (Skier.move reducer s).imageName = s.imageName := by
  unfold Skier.move
  split_ifs <;> rfl

/-! Branch lemmas for the collision check. -/

lemma checkIfHitObstacle_none (imgDims : ImageName → ℚ × ℚ)
    (obstacles : List Obstacle) (s : Skier)
    (h : obstacles.find?
        (fun o => intersectTwoRects (Skier.getBounds imgDims s) o.bounds)
        = none) :
    Skier.checkIfHitObstacle imgDims obstacles s = s := by
  unfold Skier.checkIfHitObstacle
  simp only [h]

lemma checkIfHitObstacle_pass (imgDims : ImageName → ℚ × ℚ)
    (obstacles : List Obstacle) (s : Skier) (c : Obstacle)
    (h : obstacles.find?
        (fun o => intersectTwoRects (Skier.getBounds imgDims s) o.bounds)
        = some c)
    (hj : s.state = SkierState.jumping)
    (hm : JUMPABLE_OBSTACLES.contains c.imageName = true) :
    Skier.checkIfHitObstacle imgDims obstacles s = s := by
  unfold Skier.checkIfHitObstacle
  simp only [h, hj, hm]
  simp

lemma checkIfHitObstacle_jump (imgDims : ImageName → ℚ × ℚ)
    (obstacles : List Obstacle) (s : Skier) (c : Obstacle)
    (h : obstacles.find?
        (fun o => intersectTwoRects (Skier.getBounds imgDims s) o.bounds)
        = some c)
    (hs : s.state = SkierState.skiing)
    (hm : JUMP_INITIATING_OBSTACLES.contains c.imageName = true) :
    Skier.checkIfHitObstacle imgDims obstacles s = Skier.jump s := by
  unfold Skier.checkIfHitObstacle
  simp only [h, hs, hm]
  simp

lemma checkIfHitObstacle_crash (imgDims : ImageName → ℚ × ℚ)
    (obstacles : List Obstacle) (s : Skier) (c : Obstacle)
    (h : obstacles.find?
        (fun o => intersectTwoRects (Skier.getBounds imgDims s) o.bounds)
        = some c)
    (hnj : ¬(s.state = SkierState.jumping ∧
        JUMPABLE_OBSTACLES.contains c.imageName = true))
    (hns : ¬(s.state = SkierState.skiing ∧
        JUMP_INITIATING_OBSTACLES.contains c.imageName = true)) :
    Skier.checkIfHitObstacle imgDims obstacles s = Skier.crash s := by
  unfold Skier.checkIfHitObstacle
  simp only [h]
  rw [if_neg, if_neg]
  · intro hc
    exact hns ⟨hc.1, hc.2⟩
  · intro hc
    exact hnj ⟨hc.1, hc.2⟩

lemma checkIfHitObstacle_cases (imgDims : ImageName → ℚ × ℚ)
    (obstacles : List Obstacle) (s : Skier) :
    Skier.checkIfHitObstacle imgDims obstacles s = s ∨
      Skier.checkIfHitObstacle imgDims obstacles s = Skier.jump s ∨
      Skier.checkIfHitObstacle imgDims obstacles s = Skier.crash s := by
  unfold Skier.checkIfHitObstacle
  rcases h : obstacles.find?
      (fun o => intersectTwoRects (Skier.getBounds imgDims s) o.bounds)
      with _ | c
  · simp [h]
  · simp only [h]
    split_ifs
    · exact Or.inl rfl
    · exact Or.inr (Or.inl rfl)
    · exact Or.inr (Or.inr rfl)

lemma update_eq (reducer : ℚ) (frameSpeedMs : ℤ)
    (imgDims : ImageName → ℚ × ℚ) (obstacles : List Obstacle) (gameTime : ℤ)
    (s : Skier)
    (h : s.state = SkierState.jumping ∨ s.state = SkierState.skiing) :
    Skier.update reducer frameSpeedMs imgDims obstacles gameTime s =
      (if (Skier.checkIfHitObstacle imgDims obstacles
            (Skier.move reducer s)).state = SkierState.jumping
       then Skier.animate frameSpeedMs gameTime
            (Skier.checkIfHitObstacle imgDims obstacles (Skier.move reducer s))
       else Skier.checkIfHitObstacle imgDims obstacles
            (Skier.move reducer s)) := by
  simp only [Skier.update, if_pos h]

/-! The stopped-when-down invariant and its preservation by every
operation. -/

/-- The invariant of claim C5: a crashed or dead skier has speed zero. -/
def SpeedInv (s : Skier) : Prop :=
  s.state = SkierState.crashed ∨ s.state = SkierState.dead → s.speed = 0

lemma speedInv_of_same (s t : Skier) (hst : t.state = s.state)
    (hsp : t.speed = s.speed) (h : SpeedInv s) : SpeedInv t := by
  intro hc
  rw [hsp]
  exact h (hst ▸ hc)

lemma speedInv_of_skiing (t : Skier) (hst : t.state = SkierState.skiing) :
    SpeedInv t := by
  intro hc
  rcases hc with hc | hc <;> rw [hst] at hc <;> cases hc

lemma speedInv_of_jumping (t : Skier) (hst : t.state = SkierState.jumping) :
    SpeedInv t := by
  intro hc
  rcases hc with hc | hc <;> rw [hst] at hc <;> cases hc

lemma speedInv_crash (s : Skier) : SpeedInv (Skier.crash s) := by
  intro _
  rfl

lemma speedInv_die (s : Skier) : SpeedInv (Skier.die s) := by
  intro _
  rfl

lemma speedInv_jump (s : Skier) (h : SpeedInv s) : SpeedInv (Skier.jump s) := by
  rcases jump_state s with hst | hst
  · exact speedInv_of_same s _ hst (jump_speed s) h
  · exact speedInv_of_jumping _ hst

lemma speedInv_recoverFromCrash (d : ℕ) (s : Skier) :
    SpeedInv (Skier.recoverFromCrash d s) := by
  apply speedInv_of_skiing
  rfl

lemma speedInv_animate (frameSpeedMs gameTime : ℤ) (s : Skier)
    (h : SpeedInv s) : SpeedInv (Skier.animate frameSpeedMs gameTime s) := by
  rcases animate_state frameSpeedMs gameTime s with hst | hst
  · exact speedInv_of_same s _ hst (animate_speed _ _ s) h
  · exact speedInv_of_skiing _ hst

lemma speedInv_move (reducer : ℚ) (s : Skier) (h : SpeedInv s) :
    SpeedInv (Skier.move reducer s) :=
  speedInv_of_same s _ (move_state reducer s) (move_speed reducer s) h

lemma speedInv_checkIfHitObstacle (imgDims : ImageName → ℚ × ℚ)
    (obstacles : List Obstacle) (s : Skier) (h : SpeedInv s) :
    SpeedInv (Skier.checkIfHitObstacle imgDims obstacles s) := by
  rcases checkIfHitObstacle_cases imgDims obstacles s with hc | hc | hc <;>
    rw [hc]
  · exact h
  · exact speedInv_jump s h
  · exact speedInv_crash s

lemma speedInv_update (reducer : ℚ) (frameSpeedMs : ℤ)
    (imgDims : ImageName → ℚ × ℚ) (obstacles : List Obstacle) (gameTime : ℤ)
    (s : Skier) (h : SpeedInv s) :
    SpeedInv (Skier.update reducer frameSpeedMs imgDims obstacles gameTime s) := by
  simp only [Skier.update]
  split
  · split
    · apply speedInv_animate
      apply speedInv_checkIfHitObstacle
      exact speedInv_move reducer s h
    · apply speedInv_checkIfHitObstacle
      exact speedInv_move reducer s h
  · split
    · exact speedInv_animate _ _ _ h
    · exact h

lemma setDirection_state (d : ℕ) (s : Skier) :
    (Skier.setDirection d s).state = s.state := rfl

lemma setDirection_speed (d : ℕ) (s : Skier) :
    (Skier.setDirection d s).speed = s.speed := rfl

lemma speedInv_turnLeft (s : Skier) (h : SpeedInv s) :
    SpeedInv (Skier.turnLeft s) := by
  simp only [Skier.turnLeft]
  split
  · split
    · apply speedInv_of_same (Skier.recoverFromCrash DIRECTION_LEFT s) _ rfl rfl
      exact speedInv_recoverFromCrash _ s
    · apply speedInv_of_same (Skier.recoverFromCrash DIRECTION_LEFT s) _ rfl rfl
      exact speedInv_recoverFromCrash _ s
  · split
    · exact speedInv_of_same s _ rfl rfl h
    · exact speedInv_of_same s _ rfl rfl h

lemma speedInv_turnRight (s : Skier) (h : SpeedInv s) :
    SpeedInv (Skier.turnRight s) := by
  simp only [Skier.turnRight]
  split
  · split
    · apply speedInv_of_same (Skier.recoverFromCrash DIRECTION_RIGHT s) _ rfl rfl
      exact speedInv_recoverFromCrash _ s
    · apply speedInv_of_same (Skier.recoverFromCrash DIRECTION_RIGHT s) _ rfl rfl
      exact speedInv_recoverFromCrash _ s
  · split
    · exact speedInv_of_same s _ rfl rfl h
    · exact speedInv_of_same s _ rfl rfl h

lemma speedInv_turnUp (s : Skier) (h : SpeedInv s) :
    SpeedInv (Skier.turnUp s) := by
  unfold Skier.turnUp
  split
  · exact h
  · split
    · exact speedInv_of_same s _ rfl rfl h
    · exact h

lemma speedInv_turnDown (s : Skier) (h : SpeedInv s) :
    SpeedInv (Skier.turnDown s) := by
  unfold Skier.turnDown
  split
  · exact h
  · exact speedInv_of_same s _ rfl rfl h

lemma speedInv_handleInput (inputKey : String) (s : Skier) (h : SpeedInv s) :
    SpeedInv (Skier.handleInput inputKey s).1 := by
  unfold Skier.handleInput
  split_ifs
  · exact h
  · exact speedInv_turnLeft s h
  · exact speedInv_turnRight s h
  · exact speedInv_turnUp s h
  · exact speedInv_turnDown s h
  · exact speedInv_jump s h
  · exact h

lemma speedInv_init (x y : ℚ) (t0 : ℤ) : SpeedInv (initSkier x y t0) := by
  apply speedInv_of_skiing
  rw [initSkier, setAnimation_state]

/-- C5: in every state reachable from the initial actor by any sequence of
update and handleInput operations (including the external death trigger die),
state being crashed or dead implies speed is zero. -/
theorem reachable_crashed_or_dead_speed_zero (s : Skier) (h : Reachable s) :
    s.state = SkierState.crashed ∨ s.state = SkierState.dead → s.speed = 0 := by
  have hinv : SpeedInv s := by
    induction h with
    | init x y t0 => exact speedInv_init x y t0
    | step_update reducer frameSpeedMs imgDims obstacles gameTime t _ ih =>
        exact speedInv_update reducer frameSpeedMs imgDims obstacles gameTime t ih
    | step_input inputKey t _ ih => exact speedInv_handleInput inputKey t ih
    | step_die t _ ih => exact speedInv_die t
  exact hinv

/-- Witness for C5 at a concrete reachable state: the skier killed right
after construction is dead and its speed is zero. -/
theorem reachable_crashed_or_dead_speed_zero_witness :
    Reachable (Skier.die (initSkier 0 0 0)) ∧
      (Skier.die (initSkier 0 0 0)).speed = 0 :=
  ⟨Reachable.step_die _ (Reachable.init 0 0 0),
   reachable_crashed_or_dead_speed_zero _
     (Reachable.step_die _ (Reachable.init 0 0 0)) (Or.inr rfl)⟩

/-! C6: dead is terminal. -/

lemma update_dead (reducer : ℚ) (frameSpeedMs : ℤ)
    (imgDims : ImageName → ℚ × ℚ) (obstacles : List Obstacle) (gameTime : ℤ)
    (s : Skier) (h : s.state = SkierState.dead) :
    Skier.update reducer frameSpeedMs imgDims obstacles gameTime s = s := by
  simp [Skier.update, h]

lemma handleInput_dead (inputKey : String) (s : Skier)
    (h : s.state = SkierState.dead) :
    Skier.handleInput inputKey s = (s, false) := by
  simp [Skier.handleInput, h]

lemma applyOps_dead (s : Skier) (h : s.state = SkierState.dead)
    (ops : List Op) : applyOps ops s = s := by
  induction ops with
  | nil => rfl
  | cons o rest ih =>
      have ho : applyOp o s = s := by
        cases o with
        | upd reducer frameSpeedMs imgDims obstacles gameTime =>
            exact update_dead reducer frameSpeedMs imgDims obstacles gameTime s h
        | inp inputKey => rw [applyOp, handleInput_dead inputKey s h]
      calc applyOps (o :: rest) s = applyOps rest (applyOp o s) := rfl
        _ = applyOps rest s := by rw [ho]
        _ = s := ih

/-- C6: once the skier is dead, update leaves it entirely unchanged (no
movement, no collision check, no animation advance), every input is reported
unhandled, and no sequence of update and handleInput operations ever changes
it (dead is terminal). -/
theorem dead_terminal (s : Skier) (h : s.state = SkierState.dead) :
    (∀ (reducer : ℚ) (frameSpeedMs : ℤ) (imgDims : ImageName → ℚ × ℚ)
        (obstacles : List Obstacle) (gameTime : ℤ),
      Skier.update reducer frameSpeedMs imgDims obstacles gameTime s = s) ∧
    (∀ inputKey : String, Skier.handleInput inputKey s = (s, false)) ∧
    (∀ ops : List Op, applyOps ops s = s) :=
  ⟨fun reducer frameSpeedMs imgDims obstacles gameTime =>
      update_dead reducer frameSpeedMs imgDims obstacles gameTime s h,
   fun inputKey => handleInput_dead inputKey s h,
   applyOps_dead s h⟩

/-- Witness for C6 at a concrete dead skier: one update and one input leave
the skier unchanged and unhandled. -/
theorem dead_terminal_witness :
    (Skier.die (initSkier 0 0 0)).state = SkierState.dead ∧
      Skier.update 2 250 tenByTen [bigTree] 7 (Skier.die (initSkier 0 0 0)) =
        Skier.die (initSkier 0 0 0) ∧
      Skier.handleInput KEYS_LEFT (Skier.die (initSkier 0 0 0)) =
        (Skier.die (initSkier 0 0 0), false) :=
  ⟨rfl,
   (dead_terminal _ rfl).1 2 250 tenByTen [bigTree] 7,
   (dead_terminal _ rfl).2.1 KEYS_LEFT⟩

/-- C8: the actor's bounding rectangle from a sprite of pixel width w and
height h is left = x - w/2, top = y - h/2, right = x + w/2 and
bottom = y - h/4 (the bottom edge pulled up to a quarter height above
center). -/
theorem getBounds_formula (imgDims : ImageName → ℚ × ℚ) (s : Skier)
    (w h : ℚ) (hwh : imgDims s.imageName = (w, h)) :
    Skier.getBounds imgDims s =
      { left := s.x - w / 2, top := s.y - h / 2,
        right := s.x + w / 2, bottom := s.y - h / 4 } := by
  simp [Skier.getBounds, hwh]

/-- Witness for C8 with a concrete 10-by-10 sprite provider and the freshly
constructed skier at the origin. -/
theorem getBounds_formula_witness :
    tenByTen (initSkier 0 0 0).imageName = (10, 10) ∧
      Skier.getBounds tenByTen (initSkier 0 0 0) =
        { left := (initSkier 0 0 0).x - 10 / 2,
          top := (initSkier 0 0 0).y - 10 / 2,
          right := (initSkier 0 0 0).x + 10 / 2,
          bottom := (initSkier 0 0 0).y - 10 / 4 } :=
  ⟨rfl, getBounds_formula tenByTen (initSkier 0 0 0) 10 10 rfl⟩

/-- C1 (divergence witness): for the jump command in a non-dead state the
code executes the jump — the state becomes jumping — but the missing break
in the switch makes it fall through to the default branch, so handleInput
reports the command as unhandled (false), where the claim says it returns
true.  The dead-state and unknown-command parts of the claim do hold. -/
theorem handleInput_space_fallthrough :
    (Skier.handleInput KEYS_SPACE (initSkier 0 0 0)).1.state =
        SkierState.jumping ∧
      (Skier.handleInput KEYS_SPACE (initSkier 0 0 0)).2 = false := by
  constructor
  · simp [Skier.handleInput, KEYS_SPACE, KEYS_LEFT, KEYS_RIGHT, KEYS_UP,
      KEYS_DOWN, initSkier, Skier.setAnimation, animations, Skier.jump,
      Skier.setState]
  · simp [Skier.handleInput, KEYS_SPACE, KEYS_LEFT, KEYS_RIGHT, KEYS_UP,
      KEYS_DOWN, initSkier, Skier.setAnimation, animations]

/-! C7: end-to-end scenario A. -/

lemma initSkier_eq (x y : ℚ) (t0 : ℤ) :
    initSkier x y t0 =
      { x := x, y := y, imageName := ImageName.skierDown,
        state := SkierState.skiing, direction := DIRECTION_DOWN,
        speed := STARTING_SPEED, curAnimation := none, curAnimationFrame := 0,
        curAnimationFrameTime := t0, finishCount := 0 } := by
  simp [initSkier, Skier.setAnimation, animations]

lemma initSkier_state (x y : ℚ) (t0 : ℤ) :
    (initSkier x y t0).state = SkierState.skiing := by
  rw [initSkier, setAnimation_state]

lemma move_initSkier (reducer : ℚ) (x y : ℚ) (t0 : ℤ) :
    Skier.move reducer (initSkier x y t0) =
      { x := x, y := y + STARTING_SPEED, imageName := ImageName.skierDown,
        state := SkierState.skiing, direction := DIRECTION_DOWN,
        speed := STARTING_SPEED, curAnimation := none, curAnimationFrame := 0,
        curAnimationFrameTime := t0, finishCount := 0 } := by
  rw [initSkier_eq]
  simp [Skier.move, DIRECTION_DOWN, DIRECTION_LEFT_DOWN, DIRECTION_RIGHT_DOWN,
    Skier.moveSkierDown]

/-- C7: for any actor at position (100, 100) with state skiing, direction
down and speed 1, one update in which the obstacle source yields no obstacle
overlapping the actor's (post-movement) bounds increases y by exactly 1 and
leaves x unchanged. -/
theorem update_down_no_obstacle (reducer : ℚ) (frameSpeedMs : ℤ)
    (imgDims : ImageName → ℚ × ℚ) (obstacles : List Obstacle)
    (gameTime : ℤ) (s : Skier)
    (hx : s.x = 100) (hy : s.y = 100) (hst : s.state = SkierState.skiing)
    (hdir : s.direction = DIRECTION_DOWN) (hsp : s.speed = 1)
    (hno : obstacles.find?
        (fun o => intersectTwoRects
          (Skier.getBounds imgDims (Skier.move reducer s))
          o.bounds) = none) :
    (Skier.update reducer frameSpeedMs imgDims obstacles gameTime s).y =
        101 ∧
      (Skier.update reducer frameSpeedMs imgDims obstacles gameTime s).x =
        100 := by
  have hmv : Skier.move reducer s = { s with y := s.y + s.speed } := by
    simp [Skier.move, hdir, DIRECTION_DOWN, DIRECTION_LEFT_DOWN,
      DIRECTION_RIGHT_DOWN, Skier.moveSkierDown]
  have h1 : Skier.update reducer frameSpeedMs imgDims obstacles gameTime s =
      Skier.move reducer s := by
    rw [update_eq reducer frameSpeedMs imgDims obstacles gameTime s
      (Or.inr hst), checkIfHitObstacle_none _ _ _ hno, if_neg]
    rw [move_state, hst]
    intro hc
    cases hc
  rw [h1, hmv]
  constructor
  · show s.y + s.speed = 101
    rw [hy, hsp]
    norm_num
  · exact hx

/-- Witness for C7: the freshly constructed skier at (100, 100) with an
empty obstacle list; the no-overlap hypothesis holds definitionally. -/
theorem update_down_no_obstacle_witness :
    (initSkier 100 100 0).x = 100 ∧ (initSkier 100 100 0).y = 100 ∧
      (initSkier 100 100 0).state = SkierState.skiing ∧
      (initSkier 100 100 0).direction = DIRECTION_DOWN ∧
      (initSkier 100 100 0).speed = 1 ∧
      (Skier.update 2 250 tenByTen [] 7 (initSkier 100 100 0)).y = 101 ∧
      (Skier.update 2 250 tenByTen [] 7 (initSkier 100 100 0)).x = 100 :=
  ⟨rfl, rfl, initSkier_state 100 100 0, rfl, rfl,
    update_down_no_obstacle 2 250 tenByTen [] 7 (initSkier 100 100 0)
      rfl rfl (initSkier_state 100 100 0) rfl rfl rfl⟩

/-- C10: from the crashed state, a single turn-left both recovers the skier
(skiing, starting speed, facing fully left) and moves it left by the fixed
horizontal increment, because the recovery direction is already fully left;
turn-right is symmetric.  The vertical position is untouched. -/
theorem turn_recovers_crash (s : Skier) (h : s.state = SkierState.crashed) :
    ((Skier.handleInput KEYS_LEFT s).1.state = SkierState.skiing ∧
     (Skier.handleInput KEYS_LEFT s).1.speed = STARTING_SPEED ∧
     (Skier.handleInput KEYS_LEFT s).1.direction = DIRECTION_LEFT ∧
     (Skier.handleInput KEYS_LEFT s).1.x = s.x - STARTING_SPEED ∧
     (Skier.handleInput KEYS_LEFT s).1.y = s.y) ∧
    ((Skier.handleInput KEYS_RIGHT s).1.state = SkierState.skiing ∧
     (Skier.handleInput KEYS_RIGHT s).1.speed = STARTING_SPEED ∧
     (Skier.handleInput KEYS_RIGHT s).1.direction = DIRECTION_RIGHT ∧
     (Skier.handleInput KEYS_RIGHT s).1.x = s.x + STARTING_SPEED ∧
     (Skier.handleInput KEYS_RIGHT s).1.y = s.y) := by
  constructor
  · simp [Skier.handleInput, h, KEYS_LEFT, KEYS_RIGHT, KEYS_UP, KEYS_DOWN,
      KEYS_SPACE, Skier.turnLeft, Skier.recoverFromCrash, Skier.setDirection,
      Skier.setDirectionalImage, Skier.moveSkierLeft, DIRECTION_LEFT]
  · simp [Skier.handleInput, h, KEYS_LEFT, KEYS_RIGHT, KEYS_UP, KEYS_DOWN,
      KEYS_SPACE, Skier.turnRight, Skier.recoverFromCrash, Skier.setDirection,
      Skier.setDirectionalImage, Skier.moveSkierRight, DIRECTION_RIGHT]

/-- Witness for C10 at a concrete crashed skier. -/
theorem turn_recovers_crash_witness :
    (Skier.crash (initSkier 5 5 0)).state = SkierState.crashed ∧
      (Skier.handleInput KEYS_LEFT (Skier.crash (initSkier 5 5 0))).1.x =
        (Skier.crash (initSkier 5 5 0)).x - STARTING_SPEED ∧
      (Skier.handleInput KEYS_RIGHT (Skier.crash (initSkier 5 5 0))).1.state =
        SkierState.skiing :=
  ⟨rfl, (turn_recovers_crash _ rfl).1.2.2.2.1,
    (turn_recovers_crash _ rfl).2.1⟩

/-! C9: turning while jumping. -/

/-- A reachable jumping skier facing fully left: from construction, turn
left twice (down to fully left), then jump. -/
def jumpingFullLeftSkier : Skier :=
  (Skier.handleInput KEYS_SPACE
    (Skier.handleInput KEYS_LEFT
      (Skier.handleInput KEYS_LEFT (initSkier 0 0 0)).1).1).1

lemma jumpingFullLeftSkier_eq :
    jumpingFullLeftSkier =
      { x := 0, y := 0, imageName := ImageName.skierJump1,
        state := SkierState.jumping, direction := DIRECTION_LEFT,
        speed := STARTING_SPEED, curAnimation := some jumpAnimation,
        curAnimationFrame := 0, curAnimationFrameTime := 0,
        finishCount := 0 } := by
  simp [jumpingFullLeftSkier, initSkier_eq, Skier.handleInput, KEYS_LEFT,
    KEYS_RIGHT, KEYS_UP, KEYS_DOWN, KEYS_SPACE, Skier.turnLeft,
    Skier.setDirection, Skier.setDirectionalImage, Skier.jump,
    Skier.setState, Skier.setAnimation, animations, DIRECTION_LEFT,
    DIRECTION_DOWN, DIRECTION_IMAGES, jumpAnimation, IMAGES_JUMPING]

/-- C9 counterexample: in the reachable jumping state facing fully left,
turn-left does NOT change the direction and does NOT overwrite the current
image with the direction-based sprite (it nudges x left instead), so the
claim that turn-left always changes direction and overwrites currentImage
while jumping is false. -/
theorem turnLeft_full_left_while_jumping_keeps_direction :
    jumpingFullLeftSkier.state = SkierState.jumping ∧
      jumpingFullLeftSkier.direction = DIRECTION_LEFT ∧
      (Skier.handleInput KEYS_LEFT jumpingFullLeftSkier).1.direction =
        jumpingFullLeftSkier.direction ∧
      (Skier.handleInput KEYS_LEFT jumpingFullLeftSkier).1.imageName =
        ImageName.skierJump1 ∧
      DIRECTION_IMAGES DIRECTION_LEFT ≠ ImageName.skierJump1 := by
  rw [jumpingFullLeftSkier_eq]
  refine ⟨rfl, rfl, ?_, ?_, by simp [DIRECTION_IMAGES, DIRECTION_LEFT]⟩ <;>
    simp [Skier.handleInput, KEYS_LEFT, KEYS_RIGHT, KEYS_UP, KEYS_DOWN,
      KEYS_SPACE, Skier.turnLeft, Skier.moveSkierLeft, DIRECTION_LEFT]

/-- C9 (amended): while jumping, turn-left, turn-right and turn-down are
not blocked (each is reported handled), state remains jumping and the
active-animation reference and frame cursor are unchanged; turn-down snaps
the direction to down and overwrites the image with the direction sprite;
turn-left (resp. turn-right) steps the direction and overwrites the image
with the direction sprite unless the skier already faces fully left (resp.
fully right), in which case the direction and image are unchanged and the
skier is nudged horizontally instead. -/
theorem turning_while_jumping (s : Skier) (h : s.state = SkierState.jumping) :
    ((Skier.handleInput KEYS_LEFT s).2 = true ∧
     (Skier.handleInput KEYS_LEFT s).1.state = SkierState.jumping ∧
     (Skier.handleInput KEYS_LEFT s).1.curAnimation = s.curAnimation ∧
     (Skier.handleInput KEYS_LEFT s).1.curAnimationFrame =
       s.curAnimationFrame ∧
     (s.direction ≠ DIRECTION_LEFT →
       (Skier.handleInput KEYS_LEFT s).1.direction = s.direction - 1 ∧
       (Skier.handleInput KEYS_LEFT s).1.imageName =
         DIRECTION_IMAGES (s.direction - 1)) ∧
     (s.direction = DIRECTION_LEFT →
       (Skier.handleInput KEYS_LEFT s).1.direction = s.direction ∧
       (Skier.handleInput KEYS_LEFT s).1.imageName = s.imageName ∧
       (Skier.handleInput KEYS_LEFT s).1.x = s.x - STARTING_SPEED)) ∧
    ((Skier.handleInput KEYS_RIGHT s).2 = true ∧
     (Skier.handleInput KEYS_RIGHT s).1.state = SkierState.jumping ∧
     (Skier.handleInput KEYS_RIGHT s).1.curAnimation = s.curAnimation ∧
     (Skier.handleInput KEYS_RIGHT s).1.curAnimationFrame =
       s.curAnimationFrame ∧
     (s.direction ≠ DIRECTION_RIGHT →
       (Skier.handleInput KEYS_RIGHT s).1.direction = s.direction + 1 ∧
       (Skier.handleInput KEYS_RIGHT s).1.imageName =
         DIRECTION_IMAGES (s.direction + 1)) ∧
     (s.direction = DIRECTION_RIGHT →
       (Skier.handleInput KEYS_RIGHT s).1.direction = s.direction ∧
       (Skier.handleInput KEYS_RIGHT s).1.imageName = s.imageName ∧
       (Skier.handleInput KEYS_RIGHT s).1.x = s.x + STARTING_SPEED)) ∧
    ((Skier.handleInput KEYS_DOWN s).2 = true ∧
     (Skier.handleInput KEYS_DOWN s).1.state = SkierState.jumping ∧
     (Skier.handleInput KEYS_DOWN s).1.curAnimation = s.curAnimation ∧
     (Skier.handleInput KEYS_DOWN s).1.curAnimationFrame =
       s.curAnimationFrame ∧
     (Skier.handleInput KEYS_DOWN s).1.direction = DIRECTION_DOWN ∧
     (Skier.handleInput KEYS_DOWN s).1.imageName =
       DIRECTION_IMAGES DIRECTION_DOWN) := by
  refine ⟨?_, ?_, ?_⟩
  · by_cases hd : s.direction = DIRECTION_LEFT <;>
      simp [Skier.handleInput, h, hd, KEYS_LEFT, KEYS_RIGHT, KEYS_UP,
        KEYS_DOWN, KEYS_SPACE, Skier.turnLeft, Skier.moveSkierLeft,
        Skier.setDirection, Skier.setDirectionalImage]
  · by_cases hd : s.direction = DIRECTION_RIGHT <;>
      simp [Skier.handleInput, h, hd, KEYS_LEFT, KEYS_RIGHT, KEYS_UP,
        KEYS_DOWN, KEYS_SPACE, Skier.turnRight, Skier.moveSkierRight,
        Skier.setDirection, Skier.setDirectionalImage]
  · simp [Skier.handleInput, h, KEYS_LEFT, KEYS_RIGHT, KEYS_UP, KEYS_DOWN,
      KEYS_SPACE, Skier.turnDown, Skier.setDirection,
      Skier.setDirectionalImage]

/-- Witness for C9 at the concrete reachable jumping skier facing fully
left: turn-left keeps the direction and nudges x, and turn-down snaps the
direction to down. -/
theorem turning_while_jumping_witness :
    jumpingFullLeftSkier.state = SkierState.jumping ∧
      ((Skier.handleInput KEYS_LEFT jumpingFullLeftSkier).1.x =
        jumpingFullLeftSkier.x - STARTING_SPEED ∧
       (Skier.handleInput KEYS_DOWN jumpingFullLeftSkier).1.direction =
        DIRECTION_DOWN) := by
  have hst : jumpingFullLeftSkier.state = SkierState.jumping := by
    rw [jumpingFullLeftSkier_eq]
  have hdir : jumpingFullLeftSkier.direction = DIRECTION_LEFT := by
    rw [jumpingFullLeftSkier_eq]
  exact ⟨hst,
    ((turning_while_jumping jumpingFullLeftSkier hst).1.2.2.2.2.2 hdir).2.2,
    (turning_while_jumping jumpingFullLeftSkier hst).2.2.2.2.2.2.1⟩

/-! C3: the per-frame collision policy. -/

lemma animate_no_finish (frameSpeedMs gameTime : ℤ) (s : Skier)
    (hadv : ∀ a, s.curAnimation = some a →
      gameTime - s.curAnimationFrameTime ≤ frameSpeedMs ∨
        s.curAnimationFrame + 1 < a.images.length) :
    (Skier.animate frameSpeedMs gameTime s).state = s.state ∧
      (Skier.animate frameSpeedMs gameTime s).curAnimation =
        s.curAnimation := by
  unfold Skier.animate
  rcases ha : s.curAnimation with _ | a
  · simp [ha]
  · simp only [ha, Option.isSome_some, if_true]
    split
    · rename_i hgap
      rcases hadv a ha with hle | hlt
      · exact absurd hgap (not_lt.mpr hle)
      · unfold Skier.nextAnimationFrame
        simp only [ha]
        rw [if_neg (by simpa using hlt)]
        exact ⟨rfl, rfl⟩
    · exact ⟨rfl, ha⟩

lemma jump_skiing (s : Skier) (h : s.state = SkierState.skiing) :
    (Skier.jump s).state = SkierState.jumping ∧
      (Skier.jump s).curAnimation = some jumpAnimation ∧
      (Skier.jump s).curAnimationFrame = 0 ∧
      (Skier.jump s).curAnimationFrameTime = s.curAnimationFrameTime := by
  simp [Skier.jump, h, Skier.setState, Skier.setAnimation, animations]

/-- C3 (amended): during one update frame whose first obstacle overlapping
the actor's (post-movement) bounds is c — (1) if the state is jumping and
c's type is jumpable, the state is still jumping after the frame, provided
the jump animation does not complete during that frame's animation advance
(elapsed time within the per-frame duration, or the frame cursor not yet at
the final frame; the counterexample shows the claim fails without this
proviso); (2) if the state is skiing and c's type is not jump-initiating,
the state becomes crashed and the speed becomes 0; (3) if the state is
skiing and c's type is jump-initiating, the state becomes jumping and the
jump animation becomes the active animation. -/
theorem update_collision_policy (reducer : ℚ) (frameSpeedMs : ℤ)
    (imgDims : ImageName → ℚ × ℚ) (obstacles : List Obstacle)
    (gameTime : ℤ) (s : Skier) (c : Obstacle)
    (hfind : obstacles.find?
        (fun o => intersectTwoRects
          (Skier.getBounds imgDims (Skier.move reducer s)) o.bounds)
        = some c) :
    (s.state = SkierState.jumping →
      JUMPABLE_OBSTACLES.contains c.imageName = true →
      (∀ a, s.curAnimation = some a →
        gameTime - s.curAnimationFrameTime ≤ frameSpeedMs ∨
          s.curAnimationFrame + 1 < a.images.length) →
      (Skier.update reducer frameSpeedMs imgDims obstacles gameTime s).state =
        SkierState.jumping) ∧
    (s.state = SkierState.skiing →
      JUMP_INITIATING_OBSTACLES.contains c.imageName = false →
      (Skier.update reducer frameSpeedMs imgDims obstacles gameTime s).state =
          SkierState.crashed ∧
        (Skier.update reducer frameSpeedMs imgDims obstacles gameTime
          s).speed = 0) ∧
    (s.state = SkierState.skiing →
      JUMP_INITIATING_OBSTACLES.contains c.imageName = true →
      (Skier.update reducer frameSpeedMs imgDims obstacles gameTime s).state =
          SkierState.jumping ∧
        (Skier.update reducer frameSpeedMs imgDims obstacles gameTime
          s).curAnimation = some jumpAnimation) := by
  refine ⟨?_, ?_, ?_⟩
  · intro h1 hm hadv
    have hm' : (Skier.move reducer s).state = SkierState.jumping := by
      rw [move_state, h1]
    have hcheck := checkIfHitObstacle_pass imgDims obstacles
      (Skier.move reducer s) c hfind hm' hm
    rw [update_eq reducer frameSpeedMs imgDims obstacles gameTime s
      (Or.inl h1), hcheck, if_pos hm']
    have hadv' : ∀ a, (Skier.move reducer s).curAnimation = some a →
        gameTime - (Skier.move reducer s).curAnimationFrameTime ≤
          frameSpeedMs ∨
          (Skier.move reducer s).curAnimationFrame + 1 < a.images.length := by
      intro a ha
      rw [(move_anim reducer s).1] at ha
      rw [(move_anim reducer s).2.1, (move_anim reducer s).2.2]
      exact hadv a ha
    rw [(animate_no_finish frameSpeedMs gameTime _ hadv').1, hm']
  · intro h1 hni
    have hm' : (Skier.move reducer s).state = SkierState.skiing := by
      rw [move_state, h1]
    have hcheck := checkIfHitObstacle_crash imgDims obstacles
      (Skier.move reducer s) c hfind
      (by
        intro hc
        rw [hm'] at hc
        cases hc.1)
      (by
        intro hc
        rw [hni] at hc
        cases hc.2)
    rw [update_eq reducer frameSpeedMs imgDims obstacles gameTime s
      (Or.inr h1), hcheck, if_neg (by intro hc; cases hc)]
    exact ⟨rfl, rfl⟩
  · intro h1 hji
    have hm' : (Skier.move reducer s).state = SkierState.skiing := by
      rw [move_state, h1]
    have hcheck := checkIfHitObstacle_jump imgDims obstacles
      (Skier.move reducer s) c hfind hm' hji
    have hj := jump_skiing (Skier.move reducer s) hm'
    rw [update_eq reducer frameSpeedMs imgDims obstacles gameTime s
      (Or.inr h1), hcheck, if_pos hj.1]
    have hadv' : ∀ a, (Skier.jump (Skier.move reducer s)).curAnimation =
        some a →
        gameTime - (Skier.jump (Skier.move reducer s)).curAnimationFrameTime ≤
          frameSpeedMs ∨
          (Skier.jump (Skier.move reducer s)).curAnimationFrame + 1 <
            a.images.length := by
      intro a ha
      rw [hj.2.1] at ha
      right
      rw [hj.2.2.1]
      cases ha
      simp [jumpAnimation, IMAGES_JUMPING]
    refine ⟨?_, ?_⟩
    · rw [(animate_no_finish frameSpeedMs gameTime _ hadv').1, hj.1]
    · rw [(animate_no_finish frameSpeedMs gameTime _ hadv').2, hj.2.1]

lemma find_overlap_init (o : Obstacle)
    (hb : o.bounds = { left := 90, top := 90, right := 110, bottom := 110 }) :
    [o].find?
        (fun q => intersectTwoRects
          (Skier.getBounds tenByTen (Skier.move 2 (initSkier 100 100 0)))
          q.bounds) = some o := by
  apply List.find?_cons_of_pos
  rw [move_initSkier, hb]
  norm_num [Skier.getBounds, tenByTen, intersectTwoRects, STARTING_SPEED]

/-- Witness for C3 at concrete frames: the skiing skier at (100, 100) whose
bounds the big ramp overlaps ends the frame jumping with the jump animation
active, and the same skier overlapped by the big tree ends the frame crashed
at speed 0. -/
theorem update_collision_policy_witness :
    ([bigRamp].find?
        (fun o => intersectTwoRects
          (Skier.getBounds tenByTen (Skier.move 2 (initSkier 100 100 0)))
          o.bounds) = some bigRamp ∧
      (Skier.update 2 250 tenByTen [bigRamp] 7 (initSkier 100 100 0)).state =
          SkierState.jumping ∧
      (Skier.update 2 250 tenByTen [bigRamp] 7
          (initSkier 100 100 0)).curAnimation = some jumpAnimation) ∧
    ([bigTree].find?
        (fun o => intersectTwoRects
          (Skier.getBounds tenByTen (Skier.move 2 (initSkier 100 100 0)))
          o.bounds) = some bigTree ∧
      (Skier.update 2 250 tenByTen [bigTree] 7 (initSkier 100 100 0)).state =
          SkierState.crashed ∧
      (Skier.update 2 250 tenByTen [bigTree] 7
          (initSkier 100 100 0)).speed = 0) := by
  have hfr := find_overlap_init bigRamp rfl
  have hft := find_overlap_init bigTree rfl
  have hramp := (update_collision_policy 2 250 tenByTen [bigRamp] 7
      (initSkier 100 100 0) bigRamp hfr).2.2 (initSkier_state 100 100 0)
      (by decide)
  have htree := (update_collision_policy 2 250 tenByTen [bigTree] 7
      (initSkier 100 100 0) bigTree hft).2.1 (initSkier_state 100 100 0)
      (by decide)
  exact ⟨⟨hfr, hramp.1, hramp.2⟩, ⟨hft, htree.1, htree.2⟩⟩

/-- A reachable-looking skier on the last frame of the jump animation, used
to refute the unamended part (1) of C3. -/
def lateJumpSkier : Skier :=
  { x := 100, y := 100, imageName := ImageName.skierJump5,
    state := SkierState.jumping, direction := DIRECTION_DOWN,
    speed := STARTING_SPEED, curAnimation := some jumpAnimation,
    curAnimationFrame := 4, curAnimationFrameTime := 0, finishCount := 0 }

/-- C3 counterexample: with the skier jumping and the first (and only)
overlapping obstacle a jumpable rock, the state after the frame is skiing,
not jumping — the jump animation completed during the same frame's
animation advance.  This refutes the claim's part (1) as stated ("state is
still jumping after the frame"). -/
theorem jumpable_overlap_can_end_jump :
    lateJumpSkier.state = SkierState.jumping ∧
      [bigRock].find?
        (fun o => intersectTwoRects
          (Skier.getBounds tenByTen (Skier.move 2 lateJumpSkier)) o.bounds)
        = some bigRock ∧
      JUMPABLE_OBSTACLES.contains bigRock.imageName = true ∧
      (Skier.update 2 250 tenByTen [bigRock] 1000 lateJumpSkier).state =
        SkierState.skiing := by
  have hmove : Skier.move 2 lateJumpSkier =
      { x := 100, y := 100 + STARTING_SPEED, imageName := ImageName.skierJump5,
        state := SkierState.jumping, direction := DIRECTION_DOWN,
        speed := STARTING_SPEED, curAnimation := some jumpAnimation,
        curAnimationFrame := 4, curAnimationFrameTime := 0,
        finishCount := 0 } := by
    simp [Skier.move, lateJumpSkier, DIRECTION_DOWN, DIRECTION_LEFT_DOWN,
      DIRECTION_RIGHT_DOWN, Skier.moveSkierDown]
  have hfind : [bigRock].find?
      (fun o => intersectTwoRects
        (Skier.getBounds tenByTen (Skier.move 2 lateJumpSkier)) o.bounds)
      = some bigRock := by
    apply List.find?_cons_of_pos
    rw [hmove]
    norm_num [Skier.getBounds, tenByTen, intersectTwoRects, STARTING_SPEED,
      bigRock]
  have hcheck := checkIfHitObstacle_pass tenByTen [bigRock]
    (Skier.move 2 lateJumpSkier) bigRock hfind
    (by rw [hmove]) (by decide)
  refine ⟨rfl, hfind, by decide, ?_⟩
  rw [update_eq 2 250 tenByTen [bigRock] 1000 lateJumpSkier (Or.inl rfl),
    hcheck, if_pos (by rw [hmove]), hmove]
  simp [Skier.animate, Skier.nextAnimationFrame, Skier.finishAnimation,
    Skier.finishJumping, jumpAnimation, IMAGES_JUMPING]

/-! C4: the jump animation completes on the fifth advance. -/

lemma animate_advance (frameSpeedMs gameTime : ℤ) (s : Skier) (a : Animation)
    (ha : s.curAnimation = some a)
    (hgap : gameTime - s.curAnimationFrameTime > frameSpeedMs)
    (hlt : s.curAnimationFrame + 1 < a.images.length) :
    Skier.animate frameSpeedMs gameTime s =
      { s with curAnimationFrameTime := gameTime,
               curAnimationFrame := s.curAnimationFrame + 1,
               imageName := a.images.getD (s.curAnimationFrame + 1)
                 ImageName.undefinedImage } := by
  unfold Skier.animate
  simp only [ha, Option.isSome_some, if_true, if_pos hgap]
  unfold Skier.nextAnimationFrame
  simp only [ha]
  rw [if_neg (by simpa using hlt)]

lemma animate_finish (frameSpeedMs gameTime : ℤ) (s : Skier) (a : Animation)
    (ha : s.curAnimation = some a)
    (hgap : gameTime - s.curAnimationFrameTime > frameSpeedMs)
    (hge : a.images.length ≤ s.curAnimationFrame + 1)
    (hnl : a.looping = false) :
    Skier.animate frameSpeedMs gameTime s =
      Skier.finishJumping
        { s with curAnimationFrameTime := gameTime,
                 curAnimationFrame := s.curAnimationFrame + 1,
                 curAnimation := none,
                 finishCount := s.finishCount + 1 } := by
  unfold Skier.animate
  simp only [ha, Option.isSome_some, if_true, if_pos hgap]
  unfold Skier.nextAnimationFrame
  simp only [ha]
  rw [if_pos (by simpa using hge), if_pos hnl]
  rfl

/-- C4: from a skier whose active animation is the non-looping five-image
jump animation with the frame cursor at 0 (jumping, or already forced into
the crashed state mid-jump), five consecutive animation advances, each with
elapsed time exceeding the per-frame duration, leave the callback unfired
and the state unchanged through the first four; on the fifth advance the
completion callback fires exactly once (the ghost counter increases by one),
the active-animation reference becomes null, and the state reverts to
skiing — unless the skier was in the crashed state, which is kept. -/
theorem jump_animation_five_advances (frameSpeedMs t1 t2 t3 t4 t5 : ℤ)
    (s : Skier)
    (hstate : s.state = SkierState.jumping ∨ s.state = SkierState.crashed)
    (hanim : s.curAnimation = some jumpAnimation)
    (hframe : s.curAnimationFrame = 0)
    (h1 : t1 - s.curAnimationFrameTime > frameSpeedMs)
    (h2 : t2 - t1 > frameSpeedMs) (h3 : t3 - t2 > frameSpeedMs)
    (h4 : t4 - t3 > frameSpeedMs) (h5 : t5 - t4 > frameSpeedMs) :
    (Skier.animate frameSpeedMs t4 (Skier.animate frameSpeedMs t3
        (Skier.animate frameSpeedMs t2 (Skier.animate frameSpeedMs t1
          s)))).finishCount = s.finishCount ∧
    (Skier.animate frameSpeedMs t4 (Skier.animate frameSpeedMs t3
        (Skier.animate frameSpeedMs t2 (Skier.animate frameSpeedMs t1
          s)))).state = s.state ∧
    (Skier.animate frameSpeedMs t5 (Skier.animate frameSpeedMs t4
        (Skier.animate frameSpeedMs t3 (Skier.animate frameSpeedMs t2
          (Skier.animate frameSpeedMs t1 s))))).finishCount =
        s.finishCount + 1 ∧
    (Skier.animate frameSpeedMs t5 (Skier.animate frameSpeedMs t4
        (Skier.animate frameSpeedMs t3 (Skier.animate frameSpeedMs t2
          (Skier.animate frameSpeedMs t1 s))))).curAnimation = none ∧
    (Skier.animate frameSpeedMs t5 (Skier.animate frameSpeedMs t4
        (Skier.animate frameSpeedMs t3 (Skier.animate frameSpeedMs t2
          (Skier.animate frameSpeedMs t1 s))))).state =
        (if s.state = SkierState.crashed then SkierState.crashed
         else SkierState.skiing) := by
  obtain ⟨x, y, img, st, dir, sp, anim, fr, ft, fc⟩ := s
  simp only at hanim hframe h1 ⊢
  subst hanim
  subst hframe
  rw [animate_advance frameSpeedMs t1 _ jumpAnimation rfl h1
    (by norm_num [jumpAnimation, IMAGES_JUMPING])]
  rw [animate_advance frameSpeedMs t2 _ jumpAnimation rfl h2
    (by norm_num [jumpAnimation, IMAGES_JUMPING])]
  rw [animate_advance frameSpeedMs t3 _ jumpAnimation rfl h3
    (by norm_num [jumpAnimation, IMAGES_JUMPING])]
  rw [animate_advance frameSpeedMs t4 _ jumpAnimation rfl h4
    (by norm_num [jumpAnimation, IMAGES_JUMPING])]
  rw [animate_finish frameSpeedMs t5 _ jumpAnimation rfl h5
    (by norm_num [jumpAnimation, IMAGES_JUMPING]) rfl]
  rcases hstate with hst | hst <;> simp only at hst <;> subst hst <;>
    simp [Skier.finishJumping]

/-- Witness for C4 at the concrete reachable jumping skier, with a 250 ms
per-frame duration and advances at 300, 600, 900, 1200 and 1500 ms. -/
theorem jump_animation_five_advances_witness :
    jumpingFullLeftSkier.curAnimation = some jumpAnimation ∧
      (Skier.animate 250 1500 (Skier.animate 250 1200
        (Skier.animate 250 900 (Skier.animate 250 600
          (Skier.animate 250 300 jumpingFullLeftSkier))))).finishCount =
        jumpingFullLeftSkier.finishCount + 1 ∧
      (Skier.animate 250 1500 (Skier.animate 250 1200
        (Skier.animate 250 900 (Skier.animate 250 600
          (Skier.animate 250 300 jumpingFullLeftSkier))))).curAnimation =
        none ∧
      (Skier.animate 250 1500 (Skier.animate 250 1200
        (Skier.animate 250 900 (Skier.animate 250 600
          (Skier.animate 250 300 jumpingFullLeftSkier))))).state =
        SkierState.skiing := by
  have h := jump_animation_five_advances 250 300 600 900 1200 1500
    jumpingFullLeftSkier
    (Or.inl (by rw [jumpingFullLeftSkier_eq]))
    (by rw [jumpingFullLeftSkier_eq])
    (by rw [jumpingFullLeftSkier_eq])
    (by rw [jumpingFullLeftSkier_eq]; norm_num)
    (by norm_num) (by norm_num) (by norm_num) (by norm_num)
  refine ⟨by rw [jumpingFullLeftSkier_eq], h.2.2.1, h.2.2.2.1, ?_⟩
  rw [h.2.2.2.2, if_neg]
  rw [jumpingFullLeftSkier_eq]
  intro hc
  cases hc

/-! C2: the claimed equivalence between jumping and a non-null active
animation fails on a reachable state, because crash does not clear
curAnimation. -/

/-- The skier right after pressing jump at construction: jumping with the
jump animation active. -/
def jumpAtStartSkier : Skier :=
  (Skier.handleInput KEYS_SPACE (initSkier 100 100 0)).1

lemma jumpAtStartSkier_eq :
    jumpAtStartSkier =
      { x := 100, y := 100, imageName := ImageName.skierJump1,
        state := SkierState.jumping, direction := DIRECTION_DOWN,
        speed := STARTING_SPEED, curAnimation := some jumpAnimation,
        curAnimationFrame := 0, curAnimationFrameTime := 0,
        finishCount := 0 } := by
  simp [jumpAtStartSkier, initSkier_eq, Skier.handleInput, KEYS_LEFT,
    KEYS_RIGHT, KEYS_UP, KEYS_DOWN, KEYS_SPACE, Skier.jump, Skier.setState,
    Skier.setAnimation, animations, jumpAnimation, IMAGES_JUMPING]

/-- C2 (divergence witness): the state reached from the initial actor by a
jump input and then one update in which a tree overlaps the skier's bounds
is crashed — yet its active-animation reference is still the jump animation
(crash does not clear curAnimation), so the claimed equivalence
`state == jumping ⇔ curAnimation != null` fails on a reachable state.  The
forward direction (jumping implies a non-null animation) is not refuted,
only the converse. -/
theorem crash_while_jumping_keeps_animation :
    Reachable (Skier.update 2 250 tenByTen [bigTree] 7 jumpAtStartSkier) ∧
      (Skier.update 2 250 tenByTen [bigTree] 7 jumpAtStartSkier).state =
        SkierState.crashed ∧
      (Skier.update 2 250 tenByTen [bigTree] 7 jumpAtStartSkier).curAnimation
        = some jumpAnimation := by
  refine ⟨Reachable.step_update 2 250 tenByTen [bigTree] 7 _
    (Reachable.step_input KEYS_SPACE _ (Reachable.init 100 100 0)), ?_⟩
  rw [jumpAtStartSkier_eq]
  have hmove : Skier.move 2
      { x := 100, y := 100, imageName := ImageName.skierJump1,
        state := SkierState.jumping, direction := DIRECTION_DOWN,
        speed := STARTING_SPEED, curAnimation := some jumpAnimation,
        curAnimationFrame := 0, curAnimationFrameTime := 0,
        finishCount := 0 } =
      { x := 100, y := 100 + STARTING_SPEED,
        imageName := ImageName.skierJump1, state := SkierState.jumping,
        direction := DIRECTION_DOWN, speed := STARTING_SPEED,
        curAnimation := some jumpAnimation, curAnimationFrame := 0,
        curAnimationFrameTime := 0, finishCount := 0 } := by
    simp [Skier.move, DIRECTION_DOWN, DIRECTION_LEFT_DOWN,
      DIRECTION_RIGHT_DOWN, Skier.moveSkierDown]
  have hfind : [bigTree].find?
      (fun o => intersectTwoRects
        (Skier.getBounds tenByTen (Skier.move 2
          { x := 100, y := 100, imageName := ImageName.skierJump1,
            state := SkierState.jumping, direction := DIRECTION_DOWN,
            speed := STARTING_SPEED, curAnimation := some jumpAnimation,
            curAnimationFrame := 0, curAnimationFrameTime := 0,
            finishCount := 0 })) o.bounds) = some bigTree := by
    apply List.find?_cons_of_pos
    rw [hmove]
    norm_num [Skier.getBounds, tenByTen, intersectTwoRects, STARTING_SPEED,
      bigTree]
  have hcheck := checkIfHitObstacle_crash tenByTen [bigTree] _ bigTree hfind
    (by
      intro hc
      exact absurd hc.2 (by decide))
    (by
      intro hc
      rw [hmove] at hc
      cases hc.1)
  rw [update_eq 2 250 tenByTen [bigTree] 7 _ (Or.inl rfl), hcheck,
    if_neg (by simp [Skier.crash]), hmove]
  exact ⟨rfl, rfl⟩

end CerosSki
